import Mathlib

/-!
Verification of the graph-workflow engine and the two workflow
configurations of this repository: the retrieval-routing pipeline
(`medium.py`) and the support-triage pipeline (`realtime_support_graph.py`).

The node functions, routing functions and workflow wirings are translated
from the Python source.  External collaborators (the LLM decision function,
the two vector-collection lookups and the web search) are opaque function
parameters, mirroring the interface contracts of the design.  The graph
executor itself lives in the external `langgraph` library, not in this
repository's files; it is modelled from the specification (PURPOSE,
4.2 Edge Table, 4.3 Graph Executor).
-/

/-! ## Python string primitives

Kernel-evaluable models of the Python string operations used by the node
functions: `str.lower()`, substring membership (`needle in hay`) and
`str.strip()`. -/

/-- Model of Python `str.lower()`: lower-case every character. -/
def toLowerS (s : String) : String := ⟨s.data.map Char.toLower⟩

/-- Helper for substring search: is `needle` a prefix of `hay`? -/
def isPrefixL (needle hay : List Char) : Bool :=
  match needle, hay with
  | [], _ => true
  | _ :: _, [] => false
  | n :: ns, h :: hs => n == h && isPrefixL ns hs

/-- Model of Python `needle in hay` (substring containment) on char lists. -/
def isSubstrOf (needle hay : List Char) : Bool :=
  match hay with
  | [] => isPrefixL needle []
  | _ :: hs => isPrefixL needle hay || isSubstrOf needle hs

/-- Model of Python `str.strip()`: drop leading and trailing whitespace. -/
def pyStrip (s : String) : String :=
  ⟨((s.data.dropWhile Char.isWhitespace).reverse.dropWhile Char.isWhitespace).reverse⟩

namespace Engine

/-! ## Graph engine

Modelled from the spec: the graph executor (Node Registry, Edge Table,
Graph Executor of sections 4.1 to 4.3) is provided by the external
`langgraph` library and is not part of this repository's source files, so
it is embedded here following the specification text: nodes are looked up
by name, a node's returned update is merged into the state, static edges
name their successor, conditional edges invoke a routing function and map
the returned label through a label table (an unmapped label is a fatal
`UnmappedLabel` error), and the terminal marker ends the walk.  Routing
functions may consult and update state (section 4.3/4.4: cycle-bounding
counters are state-resident), so they return a state paired with a label.
A successor of `none` is the terminal marker END. -/

/-- An outgoing rule of the Edge Table: a static successor, or a
conditional dispatch through a routing function and a label table. -/
inductive Edge (σ : Type) where
  | static (tgt : Option String)
  | cond (route : σ → σ × String) (labelToNode : List (String × Option String))

/-- A workflow: an entry node, named node functions producing updates of
type `υ`, a merge function folding an update into the state, and the edge
table. -/
structure Workflow (σ υ : Type) where
  entry : String
  nodes : List (String × (σ → υ))
  merge : σ → υ → σ
  edges : List (String × Edge σ)

/-- The fatal configuration errors of the error-handling design. -/
inductive ExecErr where
  | unknownNode (name : String)
  | unmappedLabel (label : String)
  | noEdge (name : String)
deriving DecidableEq

/-- Result of one invocation: a finished walk with its node-visit sequence
and final state, a fatal error (no state is returned), or fuel exhaustion
of the bounded evaluator. -/
inductive RunResult (σ : Type) where
  | ok (visits : List String) (final : σ)
  | fail (e : ExecErr)
  | outOfFuel

/-- Node Registry lookup. -/
def lookupNode {σ υ : Type} (W : Workflow σ υ) (name : String) : Option (σ → υ) :=
  W.nodes.lookup name

/-- Edge Table resolution: static edges return their target, conditional
edges run the routing function and translate its label; a label absent
from the table fails with `UnmappedLabel`. -/
def resolveNext {σ υ : Type} (W : Workflow σ υ) (cur : String) (s : σ) :
    Except ExecErr (σ × Option String) :=
  match W.edges.lookup cur with
  | none => Except.error (ExecErr.noEdge cur)
  | some (Edge.static tgt) => Except.ok (s, tgt)
  | some (Edge.cond route labelToNode) =>
    let r := route s
    match labelToNode.lookup r.2 with
    | none => Except.error (ExecErr.unmappedLabel r.2)
    | some tgt => Except.ok (r.1, tgt)

/-- Fuel-bounded executor: run the current node, merge its update, resolve
the successor, and repeat until the terminal marker (successor `none`). -/
def runE {σ υ : Type} (W : Workflow σ υ) : Nat → String → σ → RunResult σ
  | 0, _, _ => RunResult.outOfFuel
  | fuel + 1, cur, s =>
    match lookupNode W cur with
    | none => RunResult.fail (ExecErr.unknownNode cur)
    | some f =>
      match resolveNext W cur (W.merge s (f s)) with
      | Except.error e => RunResult.fail e
      | Except.ok (s', none) => RunResult.ok [cur] s'
      | Except.ok (s', some nxt) =>
        match runE W fuel nxt s' with
        | RunResult.ok visits final => RunResult.ok (cur :: visits) final
        | r => r

/-- Big-step execution relation, mirroring `runE` without fuel: used to
state determinism of the walk. -/
inductive Exec {σ υ : Type} (W : Workflow σ υ) : String → σ → List String → σ → Prop where
  | last {cur : String} {s : σ} {f : σ → υ} {s' : σ}
      (hf : lookupNode W cur = some f)
      (hres : resolveNext W cur (W.merge s (f s)) = Except.ok (s', none)) :
      Exec W cur s [cur] s'
  | step {cur : String} {s : σ} {f : σ → υ} {s' : σ} {nxt : String}
      {visits : List String} {final : σ}
      (hf : lookupNode W cur = some f)
      (hres : resolveNext W cur (W.merge s (f s)) = Except.ok (s', some nxt))
      (tail : Exec W nxt s' visits final) :
      Exec W cur s (cur :: visits) final

end Engine

namespace Support

/-! ## Support-triage workflow (`realtime_support_graph.py`)

The state schema, node functions, routing functions and wiring are
translated from the source.  Node functions return partial updates
(`SupportUpdate`, a dictionary of optionally-present fields) which the
executor merges into the state; absent fields keep their previous value.
`escalate_to_human` builds its ticket identifier from the current wall
clock, which is passed in as the opaque string `now` (the source formats
`datetime.now()`). -/

/-- The sentiment labels of the state schema. -/
inductive Sentiment where
  | positive | neutral | negative | urgent
deriving DecidableEq

/-- The category labels of the state schema. -/
inductive Category where
  | billing | technical | account | product
deriving DecidableEq

/-- The priority labels of the state schema. -/
inductive Priority where
  | low | medium | high | critical
deriving DecidableEq

/-- String rendering of a category, as Python interpolates it. -/
def Category.str : Category → String
  | Category.billing => "billing"
  | Category.technical => "technical"
  | Category.account => "account"
  | Category.product => "product"

/-- String rendering of a priority, as Python interpolates it. -/
def Priority.str : Priority → String
  | Priority.low => "low"
  | Priority.medium => "medium"
  | Priority.high => "high"
  | Priority.critical => "critical"

/-- Python interpolation of an optional category (`None` when absent). -/
def showCategory : Option Category → String
  | none => "None"
  | some c => c.str

/-- Python interpolation of an optional priority (`None` when absent). -/
def showPriority : Option Priority → String
  | none => "None"
  | some p => p.str

/-- The `SupportState` TypedDict.  Fields that the caller may omit and
that nodes populate later are `Option`-valued (`none` models an absent or
`None` entry). -/
structure SupportState where
  user_id : String
  message : String
  sentiment : Option Sentiment
  category : Option Category
  priority : Option Priority
  context : Option (List String)
  response : Option String
  escalate : Option Bool
  requires_human : Option Bool
  ticket_id : Option String
deriving DecidableEq

/-- A partial state update returned by a node: `none` means the key is
absent from the returned dictionary. -/
structure SupportUpdate where
  user_id : Option String := none
  message : Option String := none
  sentiment : Option Sentiment := none
  category : Option Category := none
  priority : Option Priority := none
  context : Option (List String) := none
  response : Option String := none
  escalate : Option Bool := none
  requires_human : Option Bool := none
  ticket_id : Option String := none
deriving DecidableEq

/-- Merge one optionally-updated field: the update wins when present. -/
def updField {α : Type} (old : Option α) (new : Option α) : Option α :=
  match new with
  | some v => some v
  | none => old

/-- Modelled from the spec: the executor's merge step (4.3 step 2, "merge
its returned update into state (update fields win, unspecified fields
persist)"), specialised to the support schema. -/
def mergeUpdate (s : SupportState) (u : SupportUpdate) : SupportState where
  user_id := u.user_id.getD s.user_id
  message := u.message.getD s.message
  sentiment := updField s.sentiment u.sentiment
  category := updField s.category u.category
  priority := updField s.priority u.priority
  context := updField s.context u.context
  response := updField s.response u.response
  escalate := updField s.escalate u.escalate
  requires_human := updField s.requires_human u.requires_human
  ticket_id := updField s.ticket_id u.ticket_id

/-- The urgent keyword list of `analyze_sentiment`. -/
def urgent_keywords : List String :=
  ["urgent", "asap", "immediately", "emergency", "critical", "not working"]

/-- The negative keyword list of `analyze_sentiment`. -/
def negative_keywords : List String :=
  ["angry", "frustrated", "disappointed", "terrible", "worst"]

/-- Node `analyze_sentiment`: keyword-membership classification of the
lower-cased message. -/
def analyze_sentiment (state : SupportState) : SupportUpdate :=
  let msg := toLowerS state.message
  let sentiment :=
    if urgent_keywords.any (fun w => isSubstrOf w.data msg.data) then Sentiment.urgent
    else if negative_keywords.any (fun w => isSubstrOf w.data msg.data) then Sentiment.negative
    else if (["thank", "great", "love", "awesome"] : List String).any
        (fun w => isSubstrOf w.data msg.data) then Sentiment.positive
    else Sentiment.neutral
  { sentiment := some sentiment }

/-- Node `categorize_issue`: keyword-membership categorisation of the
lower-cased message. -/
def categorize_issue (state : SupportState) : SupportUpdate :=
  let msg := toLowerS state.message
  let category :=
    if (["bill", "charge", "payment", "refund", "invoice"] : List String).any
        (fun w => isSubstrOf w.data msg.data) then Category.billing
    else if (["bug", "error", "crash", "not working", "broken"] : List String).any
        (fun w => isSubstrOf w.data msg.data) then Category.technical
    else if (["login", "password", "access", "account", "reset"] : List String).any
        (fun w => isSubstrOf w.data msg.data) then Category.account
    else Category.product
  { category := some category }

/-- Node `assign_priority`: the source's priority decision chain. -/
def assign_priority (state : SupportState) : SupportUpdate :=
  let sentiment := state.sentiment
  let category := state.category
  let priority :=
    if sentiment = some Sentiment.urgent ∨
        (category = some Category.billing ∧ sentiment = some Sentiment.negative) then
      Priority.critical
    else if sentiment = some Sentiment.negative ∨ category = some Category.technical then
      Priority.high
    else if (category = some Category.technical ∨ category = some Category.account) ∧
        sentiment = some Sentiment.neutral then
      Priority.medium
    else Priority.low
  { priority := some priority }

/-- Node `check_knowledge_base`: auto-resolve from the knowledge base when
the priority is low or medium and the category is account or product. -/
def check_knowledge_base (state : SupportState) : SupportUpdate :=
  let category := state.category
  let priority := state.priority
  let can_auto_resolve :=
    (priority = some Priority.low ∨ priority = some Priority.medium) ∧
      (category = some Category.account ∨ category = some Category.product)
  if can_auto_resolve then
    { response := some ("Auto-resolved " ++ showCategory category ++ " issue from knowledge base"),
      requires_human := some false }
  else
    { requires_human := some true }

/-- Node `generate_ai_response`: AI response; sets `escalate` exactly when
the priority is critical. -/
def generate_ai_response (state : SupportState) : SupportUpdate :=
  { response := some ("AI-generated response for " ++ showCategory state.category ++
      " issue (Priority: " ++ showPriority state.priority ++ ")"),
    escalate := some (decide (state.priority = some Priority.critical)) }

/-- Node `escalate_to_human`: builds a ticket from the wall clock `now`
(the source formats `datetime.now()` as `%Y%m%d%H%M%S`). -/
def escalate_to_human (now : String) (state : SupportState) : SupportUpdate :=
  let tid := "TKT-" ++ now
  { response := some ("Escalated to human agent - Ticket: " ++ tid),
    ticket_id := some tid,
    escalate := some true }

/-- Node `send_automated_response`. -/
def send_automated_response (state : SupportState) : SupportUpdate :=
  { response := some ("Automated response for " ++ showCategory state.category ++ " query"),
    escalate := some false }

/-- Python truthiness of `state.get(key)` for an optionally-present
boolean field: `None` is falsy. -/
def truthy (b : Option Bool) : Bool := b.getD false

/-- Routing function `should_auto_resolve`. -/
def should_auto_resolve (state : SupportState) : String :=
  if ! truthy state.requires_human then "automated"
  else if state.priority = some Priority.critical ∨ state.priority = some Priority.high then
    "escalate"
  else "ai_response"

/-- Routing function `should_escalate`. -/
def should_escalate (state : SupportState) : String :=
  if truthy state.escalate then "escalate" else "end"

/-- The support workflow wiring of the source: nodes, entry point, static
edges and the two conditional dispatches. -/
def supportWorkflow (now : String) : Engine.Workflow SupportState SupportUpdate where
  entry := "analyze_sentiment"
  nodes :=
    [("analyze_sentiment", analyze_sentiment),
     ("categorize", categorize_issue),
     ("assign_priority", assign_priority),
     ("check_kb", check_knowledge_base),
     ("ai_response", generate_ai_response),
     ("escalate", escalate_to_human now),
     ("automated", send_automated_response)]
  merge := mergeUpdate
  edges :=
    [("analyze_sentiment", Engine.Edge.static (some "categorize")),
     ("categorize", Engine.Edge.static (some "assign_priority")),
     ("assign_priority", Engine.Edge.static (some "check_kb")),
     ("check_kb", Engine.Edge.cond (fun s => (s, should_auto_resolve s))
        [("automated", some "automated"),
         ("ai_response", some "ai_response"),
         ("escalate", some "escalate")]),
     ("ai_response", Engine.Edge.cond (fun s => (s, should_escalate s))
        [("escalate", some "escalate"), ("end", none)]),
     ("automated", Engine.Edge.static none),
     ("escalate", Engine.Edge.static none)]

/-- One invocation of the compiled support workflow (fuel 10 covers the
longest path, which visits 6 nodes). -/
def runSupport (now : String) (s : SupportState) : Engine.RunResult SupportState :=
  Engine.runE (supportWorkflow now) 10 "analyze_sentiment" s

end Support

namespace Medium

/-! ## Retrieval-routing workflow (`medium.py`)

The state schema, routing decision functions, node functions and wiring
are translated from the source.  The external collaborators are opaque
parameters: `llm` is `get_llm_response` (text prompt to text answer),
`qna` and `dev` are the two vector-collection lookups (query to the list
of retrieved document texts), and `search` is the Serper web search
(query to a text blob).  Nodes of this workflow mutate the state and
return it whole, so the update type is the state itself and the merge
keeps the returned state. -/

/-- The `GraphState` TypedDict of the retrieval workflow. -/
structure GraphState where
  query : String
  context : String
  prompt : String
  response : String
  source : String
  is_relevant : String
  iteration_count : Nat
deriving DecidableEq

/-- Routing decision `route_decision`: return the source recorded in
state. -/
def route_decision (state : GraphState) : String := state.source

/-- Routing decision `relevance_decision`: increment the state-resident
iteration counter; once it reaches 3, force the verdict to "Yes"; return
the (possibly forced) verdict.  The updated state is threaded back to the
executor, the counter being state-resident (spec 4.4). -/
def relevance_decision (state : GraphState) : GraphState × String :=
  let iteration_count := state.iteration_count + 1
  let state := { state with iteration_count := iteration_count }
  if 3 ≤ iteration_count then
    let state := { state with is_relevant := "Yes" }
    (state, state.is_relevant)
  else
    (state, state.is_relevant)

/-- The routing decision prompt built by the `router` node. -/
def decision_prompt_text (query : String) : String :=
  "\n    You are a routing agent. Based on the user query, decide where to look for information.\n    Options:\n    - Retrieve_QnA: if it\x27s about general medical knowledge, symptoms, or treatment.\n    - Retrieve_Device: if it\x27s about medical devices, manuals, or instructions.\n    - Web_Search: if it\x27s about recent news, brand names, or external data.\n    Query: \"" ++
    query ++
    "\"\n    Respond ONLY with one of: Retrieve_QnA, Retrieve_Device, Web_Search\n    "

/-- Node `router`: ask the decision LLM for a retrieval route and record
the stripped answer in `source`. -/
def router (llm : String → String) (state : GraphState) : GraphState :=
  let router_decision := pyStrip (llm (decision_prompt_text state.query))
  { state with source := router_decision }

/-- Node `retrieve_context_q_n_a`: join the documents returned by
collection 1 for the query and record the source name. -/
def retrieve_context_q_n_a (qna : String → List String) (state : GraphState) : GraphState :=
  let context := String.intercalate "\n" (qna state.query)
  { state with context := context, source := "Medical Q&A Collection" }

/-- Node `retrieve_context_medical_device`: join the documents returned by
collection 2 for the query and record the source name. -/
def retrieve_context_medical_device (dev : String → List String) (state : GraphState) :
    GraphState :=
  let context := String.intercalate "\n" (dev state.query)
  { state with context := context, source := "Medical Device Manual" }

/-- Node `web_search`: record the web-search blob as context. -/
def web_search (search : String → String) (state : GraphState) : GraphState :=
  let search_results := search state.query
  { state with context := search_results, source := "Web Search" }

/-- The RAG prompt built by the `build_prompt` node. -/
def augment_prompt_text (context query : String) : String :=
  "\n            Answer the following question using the context below.\n            Context:\n            " ++
    context ++
    "\n            Question: " ++ query ++
    "\n            please limit your answer in 50 words.\n            "

/-- Node `build_prompt` (Augment): compose the RAG prompt. -/
def build_prompt (state : GraphState) : GraphState :=
  { state with prompt := augment_prompt_text state.context state.query }

/-- Node `call_llm` (Generate): answer the prompt. -/
def call_llm (llm : String → String) (state : GraphState) : GraphState :=
  { state with response := llm state.prompt }

/-- The relevance-check prompt built by `check_context_relevance`. -/
def relevance_prompt_text (context query : String) : String :=
  "\n            Check the below context if the context is relevent to the user query or.\n            ####\n            Context:\n            " ++
    context ++
    "\n            ####\n            User Query: " ++ query ++
    "\n            Options:\n            - Yes: if the context is relevant.\n            - No: if the context is not relevant.\n            Please answer with only \x27Yes\x27 or \x27No\x27.\n            "

/-- Node `check_context_relevance` (Relevance_Checker): record the
stripped LLM verdict in `is_relevant`. -/
def check_context_relevance (llm : String → String) (state : GraphState) : GraphState :=
  { state with
      is_relevant := pyStrip (llm (relevance_prompt_text state.context state.query)) }

/-- The retrieval workflow wiring of the source: `START → Router`, the
conditional route to one of the three retrievers, static edges into the
relevance checker, the bounded recheck cycle back to `Web_Search`, and
the `Augment → Generate → END` tail. -/
def retrievalWorkflow (llm : String → String) (qna dev : String → List String)
    (search : String → String) : Engine.Workflow GraphState GraphState where
  entry := "Router"
  nodes :=
    [("Router", router llm),
     ("Retrieve_QnA", retrieve_context_q_n_a qna),
     ("Retrieve_Device", retrieve_context_medical_device dev),
     ("Web_Search", web_search search),
     ("Relevance_Checker", check_context_relevance llm),
     ("Augment", build_prompt),
     ("Generate", call_llm llm)]
  merge := fun _ u => u
  edges :=
    [("Router", Engine.Edge.cond (fun s => (s, route_decision s))
        [("Retrieve_QnA", some "Retrieve_QnA"),
         ("Retrieve_Device", some "Retrieve_Device"),
         ("Web_Search", some "Web_Search")]),
     ("Retrieve_QnA", Engine.Edge.static (some "Relevance_Checker")),
     ("Retrieve_Device", Engine.Edge.static (some "Relevance_Checker")),
     ("Web_Search", Engine.Edge.static (some "Relevance_Checker")),
     ("Relevance_Checker", Engine.Edge.cond relevance_decision
        [("Yes", some "Augment"), ("No", some "Web_Search")]),
     ("Augment", Engine.Edge.static (some "Generate")),
     ("Generate", Engine.Edge.static none)]

/-- One invocation of the compiled retrieval workflow starting at `start`
(fuel 10 covers the longest bounded path, which visits 9 nodes). -/
def runRetrieval (llm : String → String) (qna dev : String → List String)
    (search : String → String) (start : String) (s : GraphState) :
    Engine.RunResult GraphState :=
  Engine.runE (retrievalWorkflow llm qna dev search) 10 start s

end Medium

namespace Support

/-! ## Derived definitions used by the verification -/

/-- The decision table of the specification's testable-properties section,
amended where the source disagrees: the source's `high` branch
(`sentiment == "negative" or category == "technical"`) takes precedence
over the `medium` branch, so a technical issue with neutral or positive
sentiment is `high` (the spec table said `medium` for technical+neutral),
and the `medium` branch is reached exactly by account+neutral (the spec
table said `low` for account+neutral). -/
def specPriorityTable (s : Sentiment) (c : Category) : Priority :=
  match s, c with
  | Sentiment.urgent, _ => Priority.critical
  | Sentiment.negative, Category.billing => Priority.critical
  | Sentiment.negative, _ => Priority.high
  | _, Category.technical => Priority.high
  | Sentiment.neutral, Category.account => Priority.medium
  | _, _ => Priority.low

/-- Straight-line semantics of the walk from `check_kb` onward, mirroring
`should_auto_resolve` and `should_escalate`. -/
def checkKbRun (now : String) (s3 : SupportState) : List String × SupportState :=
  let s4 := mergeUpdate s3 (check_knowledge_base s3)
  if ! truthy s4.requires_human then
    (["check_kb", "automated"], mergeUpdate s4 (send_automated_response s4))
  else if s4.priority = some Priority.critical ∨ s4.priority = some Priority.high then
    (["check_kb", "escalate"], mergeUpdate s4 (escalate_to_human now s4))
  else
    let s5 := mergeUpdate s4 (generate_ai_response s4)
    if truthy s5.escalate then
      (["check_kb", "ai_response", "escalate"], mergeUpdate s5 (escalate_to_human now s5))
    else
      (["check_kb", "ai_response"], s5)

/-- Straight-line semantics of a whole support invocation: the static
prefix followed by the conditional tail. -/
def supportRun (now : String) (s : SupportState) : List String × SupportState :=
  let s1 := mergeUpdate s (analyze_sentiment s)
  let s2 := mergeUpdate s1 (categorize_issue s1)
  let s3 := mergeUpdate s2 (assign_priority s2)
  let r := checkKbRun now s3
  ("analyze_sentiment" :: "categorize" :: "assign_priority" :: r.1, r.2)

/-- Initial state of the first end-to-end test case of the source. -/
def c5_init : SupportState :=
  { user_id := "U123",
    message := "URGENT: Cannot access my account, need help immediately!",
    sentiment := none, category := none, priority := none, context := some [],
    response := none, escalate := none, requires_human := none, ticket_id := none }

/-- Final state of the first end-to-end test case, as the workflow
computes it (ticket built from the wall clock `now`). -/
def c5_final (now : String) : SupportState :=
  { user_id := "U123",
    message := "URGENT: Cannot access my account, need help immediately!",
    sentiment := some Sentiment.urgent, category := some Category.account,
    priority := some Priority.critical, context := some [],
    response := some ("Escalated to human agent - Ticket: " ++ ("TKT-" ++ now)),
    escalate := some true, requires_human := some true,
    ticket_id := some ("TKT-" ++ now) }

/-- Initial state of the second end-to-end test case of the source. -/
def c6_init : SupportState :=
  { user_id := "U456", message := "How do I reset my password?",
    sentiment := none, category := none, priority := none, context := some [],
    response := none, escalate := none, requires_human := none, ticket_id := none }

/-- Final state of the second end-to-end test case, as the workflow
computes it. -/
def c6_final : SupportState :=
  { user_id := "U456", message := "How do I reset my password?",
    sentiment := some Sentiment.neutral, category := some Category.account,
    priority := some Priority.medium, context := some [],
    response := some "Automated response for account query",
    escalate := some false, requires_human := some false, ticket_id := none }

/-- A state with neutral sentiment and technical category, used to compare
the priority table against the source. -/
def c2_state : SupportState :=
  { user_id := "", message := "", sentiment := some Sentiment.neutral,
    category := some Category.technical, priority := none, context := none,
    response := none, escalate := none, requires_human := none, ticket_id := none }

/-- A populated state with low priority and account category. -/
def c3_state : SupportState :=
  { user_id := "", message := "", sentiment := some Sentiment.neutral,
    category := some Category.account, priority := some Priority.low, context := none,
    response := none, escalate := none, requires_human := none, ticket_id := none }

/-- A populated state requiring a human on a critical priority. -/
def c4_state : SupportState :=
  { user_id := "", message := "", sentiment := some Sentiment.urgent,
    category := some Category.billing, priority := some Priority.critical, context := none,
    response := none, escalate := none, requires_human := some true, ticket_id := none }

/-- Initial state of a billing query with neutral sentiment: it reaches
the `ai_response` node (low priority, but billing is not auto-resolvable). -/
def c10_init : SupportState :=
  { user_id := "U", message := "invoice", sentiment := none, category := none,
    priority := none, context := none, response := none, escalate := none,
    requires_human := none, ticket_id := none }

/-- Final state of the `c10_init` invocation, as the workflow computes it. -/
def c10_final : SupportState :=
  { user_id := "U", message := "invoice", sentiment := some Sentiment.neutral,
    category := some Category.billing, priority := some Priority.low, context := none,
    response := some "AI-generated response for billing issue (Priority: low)",
    escalate := some false, requires_human := some true, ticket_id := none }

end Support

namespace Engine

/-- A one-node workflow over natural-number states, used to exhibit a
concrete execution of the big-step relation. -/
def Wtiny : Workflow Nat Nat where
  entry := "a"
  nodes := [("a", fun n => n + 1)]
  merge := fun _ u => u
  edges := [("a", Edge.static none)]

end Engine

namespace Engine

/-! ## Engine lemmas and determinism -/

/-- One-level unfolding of the fuel-bounded executor, used to walk
concrete workflows step by step. -/
theorem runE_step {σ υ : Type} (W : Workflow σ υ) (n : Nat) (cur : String) (s : σ) :
    runE W (n + 1) cur s =
      match lookupNode W cur with
      | none => RunResult.fail (ExecErr.unknownNode cur)
      | some f =>
        match resolveNext W cur (W.merge s (f s)) with
        | Except.error e => RunResult.fail e
        | Except.ok (s', none) => RunResult.ok [cur] s'
        | Except.ok (s', some nxt) =>
          match runE W n nxt s' with
          | RunResult.ok visits final => RunResult.ok (cur :: visits) final
          | r => r := rfl

/-- An execution of the one-node workflow `Wtiny`: the node `a` maps the
initial state 0 to 1 and the walk ends. -/
theorem execWtiny : Exec Wtiny "a" 0 ["a"] 1 := Exec.last rfl rfl

/-- C7: the executor is deterministic.  Node functions and routing
functions are embedded as Lean functions (the claim's determinism
hypothesis), and the big-step walk `Exec` relates one start to at most
one node-visit sequence and final state: two runs from identical initial
state agree on both. -/
theorem c7_exec_deterministic {σ υ : Type} (W : Workflow σ υ) (cur : String) (s : σ)
    (v1 v2 : List String) (f1 f2 : σ)
    (h1 : Exec W cur s v1 f1) (h2 : Exec W cur s v2 f2) :
    v1 = v2 ∧ f1 = f2 := by
  induction h1 generalizing v2 f2 with
  | last hf hres =>
    cases h2 with
    | last hf2 hres2 =>
      rw [hf] at hf2
      injection hf2 with hfe
      subst hfe
      rw [hres] at hres2
      simp only [Except.ok.injEq, Prod.mk.injEq] at hres2
      exact ⟨rfl, hres2.1⟩
    | step hf2 hres2 tail2 =>
      rw [hf] at hf2
      injection hf2 with hfe
      subst hfe
      rw [hres] at hres2
      simp at hres2
  | step hf hres tail ih =>
    cases h2 with
    | last hf2 hres2 =>
      rw [hf] at hf2
      injection hf2 with hfe
      subst hfe
      rw [hres] at hres2
      simp at hres2
    | step hf2 hres2 tail2 =>
      rw [hf] at hf2
      injection hf2 with hfe
      subst hfe
      rw [hres] at hres2
      simp only [Except.ok.injEq, Prod.mk.injEq, Option.some.injEq] at hres2
      obtain ⟨hs, hn⟩ := hres2
      subst hs
      subst hn
      obtain ⟨hv, hfin⟩ := ih _ _ tail2
      exact ⟨by rw [hv], hfin⟩

/-- Witness for C7: determinism applied to the concrete execution of
`Wtiny` from state 0, twice. -/
theorem c7_exec_deterministic_witness : (["a"] : List String) = ["a"] ∧ (1 : Nat) = 1 :=
  c7_exec_deterministic Wtiny "a" 0 ["a"] ["a"] 1 1 execWtiny execWtiny

end Engine

namespace Support

/-! ## Support workflow lemmas and claims -/

/-- Python truthiness of an optional boolean field is `true` exactly when
the field holds `true`. -/
theorem truthy_eq_true {b : Option Bool} : truthy b = true ↔ b = some true := by
  cases b with
  | none => simp [truthy]
  | some v => cases v <;> simp [truthy]

/-- The executor walk from `check_kb` agrees with the straight-line
semantics `checkKbRun`. -/
theorem runE_checkKb (now : String) (s3 : SupportState) :
    Engine.runE (supportWorkflow now) 7 "check_kb" s3 =
      Engine.RunResult.ok (checkKbRun now s3).1 (checkKbRun now s3).2 := by
  by_cases h1 : truthy (mergeUpdate s3 (check_knowledge_base s3)).requires_human = true
  · by_cases h2 : (mergeUpdate s3 (check_knowledge_base s3)).priority = some Priority.critical ∨
        (mergeUpdate s3 (check_knowledge_base s3)).priority = some Priority.high
    · simp [checkKbRun, Engine.runE, Engine.lookupNode, Engine.resolveNext, supportWorkflow,
        List.lookup, should_auto_resolve, h1, h2]
    · by_cases h3 : truthy (mergeUpdate (mergeUpdate s3 (check_knowledge_base s3))
          (generate_ai_response (mergeUpdate s3 (check_knowledge_base s3)))).escalate = true
      · simp [checkKbRun, Engine.runE, Engine.lookupNode, Engine.resolveNext, supportWorkflow,
          List.lookup, should_auto_resolve, should_escalate, h1, h2, h3]
      · simp [checkKbRun, Engine.runE, Engine.lookupNode, Engine.resolveNext, supportWorkflow,
          List.lookup, should_auto_resolve, should_escalate, h1, h2, h3]
  · simp [checkKbRun, Engine.runE, Engine.lookupNode, Engine.resolveNext, supportWorkflow,
      List.lookup, should_auto_resolve, h1]

/-- A whole support invocation agrees with the straight-line semantics
`supportRun`. -/
theorem runSupport_eq (now : String) (s : SupportState) :
    runSupport now s = Engine.RunResult.ok (supportRun now s).1 (supportRun now s).2 := by
  have h := runE_checkKb now
    (mergeUpdate (mergeUpdate (mergeUpdate s (analyze_sentiment s))
      (categorize_issue (mergeUpdate s (analyze_sentiment s))))
      (assign_priority (mergeUpdate (mergeUpdate s (analyze_sentiment s))
        (categorize_issue (mergeUpdate s (analyze_sentiment s))))))
  simp [runSupport, supportRun, Engine.runE, Engine.lookupNode, Engine.resolveNext,
    supportWorkflow, List.lookup] at h ⊢
  rw [h]

/-- A walk whose tail reaches `ai_response` took the branch with
`requires_human` set and a priority outside critical and high; there the
AI node computes `escalate = false`, `should_escalate` answers `end`, and
the escalate node is never entered. -/
theorem checkKbRun_ai_dead (now : String) (s3 : SupportState) (P : Priority)
    (hp : s3.priority = some P)
    (hai : "ai_response" ∈ (checkKbRun now s3).1) :
    (checkKbRun now s3).1 = ["check_kb", "ai_response"] ∧
    (checkKbRun now s3).2.escalate = some false ∧
    should_escalate (checkKbRun now s3).2 = "end" ∧
    (checkKbRun now s3).2.requires_human = some true ∧
    ((checkKbRun now s3).2.priority = some Priority.low ∨
      (checkKbRun now s3).2.priority = some Priority.medium) := by
  by_cases h0 : (s3.priority = some Priority.low ∨ s3.priority = some Priority.medium) ∧
      (s3.category = some Category.account ∨ s3.category = some Category.product)
  · simp [checkKbRun, check_knowledge_base, h0, mergeUpdate, updField, truthy] at hai
  · rw [hp] at h0
    simp only [Option.some.injEq] at h0
    by_cases h2 : P = Priority.critical ∨ P = Priority.high
    · rcases h2 with rfl | rfl <;>
        simp [checkKbRun, check_knowledge_base, mergeUpdate, updField, truthy, hp] at hai
    · rcases not_or.mp h2 with ⟨h2c, h2h⟩
      refine ⟨?_, ?_, ?_, ?_, ?_⟩ <;>
        simp [checkKbRun, check_knowledge_base, generate_ai_response, mergeUpdate, updField,
          truthy, should_escalate, hp, h0, h2c, h2h]
      cases P <;> simp_all

end Support

namespace Support

/-- Counterexample to C2 as stated: for sentiment neutral and category
technical the source's `high` branch fires (negative sentiment OR
technical category), so the computed priority is `high`, not the `medium`
the claimed table gives for (technical, neutral). -/
theorem c2_priority_table_counterexample :
    (assign_priority c2_state).priority = some Priority.high ∧
      some Priority.high ≠ some Priority.medium := by
  exact ⟨rfl, by decide⟩

/-- C2 amended: for every populated (sentiment, category) pair,
`assign_priority` computes the table `specPriorityTable`: urgent is
critical; billing+negative is critical; negative elsewhere is high;
technical with positive or neutral sentiment is high (not medium);
account+neutral is medium (not low); everything else is low. -/
theorem c2_priority_table_amended (st : SupportState) (sv : Sentiment) (cv : Category)
    (hs : st.sentiment = some sv) (hc : st.category = some cv) :
    (assign_priority st).priority = some (specPriorityTable sv cv) := by
  cases sv <;> cases cv <;> simp [assign_priority, specPriorityTable, hs, hc]

/-- Witness for the amended C2 at the concrete neutral+technical state. -/
theorem c2_priority_table_amended_witness :
    c2_state.sentiment = some Sentiment.neutral ∧ c2_state.category = some Category.technical ∧
      (assign_priority c2_state).priority =
        some (specPriorityTable Sentiment.neutral Category.technical) :=
  ⟨rfl, rfl, c2_priority_table_amended c2_state Sentiment.neutral Category.technical rfl rfl⟩

/-- C3: for every state with populated priority and category,
`check_knowledge_base` auto-resolves (requires_human false together with
the knowledge-base response) exactly when the priority is low or medium
and the category is account or product, and otherwise sets
requires_human. -/
theorem c3_knowledge_base_eligibility (st : SupportState) (p : Priority) (c : Category)
    (hp : st.priority = some p) (hc : st.category = some c) :
    (((check_knowledge_base st).requires_human = some false ∧
        (check_knowledge_base st).response =
          some ("Auto-resolved " ++ c.str ++ " issue from knowledge base")) ↔
      ((p = Priority.low ∨ p = Priority.medium) ∧
        (c = Category.account ∨ c = Category.product))) ∧
    (¬((p = Priority.low ∨ p = Priority.medium) ∧
        (c = Category.account ∨ c = Category.product)) →
      (check_knowledge_base st).requires_human = some true) := by
  cases p <;> cases c <;>
    simp [check_knowledge_base, showCategory, Category.str, hp, hc]

/-- Witness for C3 at the concrete low+account state. -/
theorem c3_knowledge_base_eligibility_witness :
    (check_knowledge_base c3_state).requires_human = some false ∧
      (check_knowledge_base c3_state).response =
        some ("Auto-resolved " ++ Category.account.str ++ " issue from knowledge base") :=
  (c3_knowledge_base_eligibility c3_state Priority.low Category.account rfl rfl).1.mpr
    ⟨Or.inl rfl, Or.inl rfl⟩

/-- C4: after `check_kb`, the conditional edge resolves to the escalate
node exactly when `requires_human` is set and the priority is critical or
high; with `requires_human` false it resolves to the automated node, and
otherwise to the AI-response node. -/
theorem c4_auto_resolve_routing (now : String) (st : SupportState) (b : Bool) (p : Priority)
    (hb : st.requires_human = some b) (hp : st.priority = some p) :
    (Engine.resolveNext (supportWorkflow now) "check_kb" st =
        Except.ok (st, some "escalate") ↔
      (b = true ∧ (p = Priority.critical ∨ p = Priority.high))) ∧
    (b = false →
      Engine.resolveNext (supportWorkflow now) "check_kb" st =
        Except.ok (st, some "automated")) ∧
    (b = true → ¬(p = Priority.critical ∨ p = Priority.high) →
      Engine.resolveNext (supportWorkflow now) "check_kb" st =
        Except.ok (st, some "ai_response")) := by
  cases b <;> cases p <;>
    simp [Engine.resolveNext, supportWorkflow, List.lookup, should_auto_resolve, truthy, hb, hp]

/-- Witness for C4 at the concrete critical state requiring a human. -/
theorem c4_auto_resolve_routing_witness :
    Engine.resolveNext (supportWorkflow "") "check_kb" c4_state =
      Except.ok (c4_state, some "escalate") :=
  (c4_auto_resolve_routing "" c4_state true Priority.critical rfl rfl).1.mpr
    ⟨rfl, Or.inl rfl⟩

/-- C5: the urgent account message is classified urgent and account,
prioritised critical, marked for a human, routed to the escalate node,
and the final response carries the generated ticket identifier. -/
theorem c5_urgent_scenario (now : String) :
    runSupport now c5_init =
      Engine.RunResult.ok
        ["analyze_sentiment", "categorize", "assign_priority", "check_kb", "escalate"]
        (c5_final now) ∧
    (c5_final now).sentiment = some Sentiment.urgent ∧
    (c5_final now).category = some Category.account ∧
    (c5_final now).priority = some Priority.critical ∧
    (c5_final now).requires_human = some true ∧
    "escalate" ∈
      ["analyze_sentiment", "categorize", "assign_priority", "check_kb", "escalate"] ∧
    (∃ tid, (c5_final now).ticket_id = some tid ∧
      (c5_final now).response = some ("Escalated to human agent - Ticket: " ++ tid)) := by
  exact ⟨rfl, rfl, rfl, rfl, rfl, by simp, ⟨"TKT-" ++ now, rfl, rfl⟩⟩

/-- Counterexample to C6 as stated: the password-reset run computes
priority medium (account+neutral hits the source's medium branch), not
the claimed low. -/
theorem c6_password_scenario_counterexample :
    runSupport "" c6_init =
      Engine.RunResult.ok
        ["analyze_sentiment", "categorize", "assign_priority", "check_kb", "automated"]
        c6_final ∧
    c6_final.priority = some Priority.medium ∧ some Priority.medium ≠ some Priority.low := by
  exact ⟨rfl, rfl, by decide⟩

/-- C6 amended: the password-reset message is classified neutral and
account, prioritised medium (not low), auto-resolved with requires_human
false, and routed to the automated node. -/
theorem c6_password_scenario_amended (now : String) :
    runSupport now c6_init =
      Engine.RunResult.ok
        ["analyze_sentiment", "categorize", "assign_priority", "check_kb", "automated"]
        c6_final ∧
    c6_final.sentiment = some Sentiment.neutral ∧
    c6_final.category = some Category.account ∧
    c6_final.priority = some Priority.medium ∧
    c6_final.requires_human = some false ∧
    c6_final.escalate = some false ∧
    "automated" ∈
      ["analyze_sentiment", "categorize", "assign_priority", "check_kb", "automated"] := by
  exact ⟨rfl, rfl, rfl, rfl, rfl, rfl, by simp⟩

end Support

namespace Support

/-- C9: the executor's merge keeps every field the node's returned update
does not name.  For each of the seven support nodes, merging its update
into any state leaves `user_id` and `message` (which no node writes)
unchanged, and consequently a whole invocation returns a final state
whose `user_id` and `message` equal the initial ones. -/
theorem c9_frame_preservation (now : String) (s : SupportState) :
    (mergeUpdate s (analyze_sentiment s)).user_id = s.user_id ∧
    (mergeUpdate s (analyze_sentiment s)).message = s.message ∧
    (mergeUpdate s (categorize_issue s)).user_id = s.user_id ∧
    (mergeUpdate s (categorize_issue s)).message = s.message ∧
    (mergeUpdate s (assign_priority s)).user_id = s.user_id ∧
    (mergeUpdate s (assign_priority s)).message = s.message ∧
    (mergeUpdate s (check_knowledge_base s)).user_id = s.user_id ∧
    (mergeUpdate s (check_knowledge_base s)).message = s.message ∧
    (mergeUpdate s (generate_ai_response s)).user_id = s.user_id ∧
    (mergeUpdate s (generate_ai_response s)).message = s.message ∧
    (mergeUpdate s (escalate_to_human now s)).user_id = s.user_id ∧
    (mergeUpdate s (escalate_to_human now s)).message = s.message ∧
    (mergeUpdate s (send_automated_response s)).user_id = s.user_id ∧
    (mergeUpdate s (send_automated_response s)).message = s.message ∧
    ∃ v f, runSupport now s = Engine.RunResult.ok v f ∧
      f.user_id = s.user_id ∧ f.message = s.message := by
  refine ⟨rfl, rfl, rfl, rfl, rfl, rfl, ?_, ?_, rfl, rfl, rfl, rfl, rfl, rfl, ?_⟩
  · by_cases h : (s.priority = some Priority.low ∨ s.priority = some Priority.medium) ∧
        (s.category = some Category.account ∨ s.category = some Category.product) <;>
      simp [mergeUpdate, check_knowledge_base, updField, h]
  · by_cases h : (s.priority = some Priority.low ∨ s.priority = some Priority.medium) ∧
        (s.category = some Category.account ∨ s.category = some Category.product) <;>
      simp [mergeUpdate, check_knowledge_base, updField, h]
  · refine ⟨_, _, runSupport_eq now s, ?_, ?_⟩ <;>
      · dsimp only [supportRun, checkKbRun, check_knowledge_base]
        split_ifs <;> rfl

end Support

namespace Support

/-- C10: the edge from the AI-response node to the escalate node is dead.
Every invocation whose visit sequence reaches `ai_response` took the
branch with `requires_human` set and a priority outside critical and high
(hence low or medium, as `assign_priority` populated it); there
`generate_ai_response` computes `escalate = false`, `should_escalate`
answers `end`, and the walk is exactly the five-node path that never
enters the escalate node. -/
theorem c10_ai_response_escalate_dead (now : String) (s : SupportState)
    (v : List String) (f : SupportState)
    (hrun : runSupport now s = Engine.RunResult.ok v f)
    (hai : "ai_response" ∈ v) :
    v = ["analyze_sentiment", "categorize", "assign_priority", "check_kb", "ai_response"] ∧
    "escalate" ∉ v ∧
    f.escalate = some false ∧
    should_escalate f = "end" ∧
    f.requires_human = some true ∧
    (f.priority = some Priority.low ∨ f.priority = some Priority.medium) := by
  rw [runSupport_eq] at hrun
  injection hrun with hv hf
  subst hv
  subst hf
  simp only [supportRun, List.mem_cons] at hai
  simp only [supportRun]
  have hai' : "ai_response" ∈
      (checkKbRun now (mergeUpdate (mergeUpdate (mergeUpdate s (analyze_sentiment s))
        (categorize_issue (mergeUpdate s (analyze_sentiment s))))
        (assign_priority (mergeUpdate (mergeUpdate s (analyze_sentiment s))
          (categorize_issue (mergeUpdate s (analyze_sentiment s))))))).1 := by
    rcases hai with h | h | h | h
    · exact absurd h (by decide)
    · exact absurd h (by decide)
    · exact absurd h (by decide)
    · exact h
  obtain ⟨e1, e2, e3, e4, e5⟩ := checkKbRun_ai_dead now _ _ rfl hai'
  refine ⟨?_, ?_, e2, e3, e4, e5⟩
  · rw [e1]
  · rw [e1]
    decide

end Support

namespace Support

/-- Witness for C10: the neutral billing query reaches `ai_response` and
exhibits the dead escalate edge concretely. -/
theorem c10_ai_response_escalate_dead_witness :
    (["analyze_sentiment", "categorize", "assign_priority", "check_kb", "ai_response"] =
      ["analyze_sentiment", "categorize", "assign_priority", "check_kb", "ai_response"]) ∧
    "escalate" ∉
      ["analyze_sentiment", "categorize", "assign_priority", "check_kb", "ai_response"] ∧
    c10_final.escalate = some false ∧
    should_escalate c10_final = "end" ∧
    c10_final.requires_human = some true ∧
    (c10_final.priority = some Priority.low ∨ c10_final.priority = some Priority.medium) :=
  c10_ai_response_escalate_dead "" c10_init
    ["analyze_sentiment", "categorize", "assign_priority", "check_kb", "ai_response"]
    c10_final rfl (by decide)

end Support

namespace Medium

/-! ## Retrieval workflow claims -/

/-- C1: `relevance_decision` increments the state-resident counter on
every invocation and forces the verdict to "Yes" whenever the incremented
counter reaches 3; consequently, in an invocation starting with a fresh
counter, the recheck cycle with every verdict "No" visits the
Relevance_Checker decision exactly 3 times (hence at most 3) before
routing to Augment and terminating. -/
theorem c1_relevance_cycle_bounded :
    (∀ t : GraphState, (relevance_decision t).1.iteration_count = t.iteration_count + 1) ∧
    (∀ t : GraphState, 3 ≤ t.iteration_count + 1 → (relevance_decision t).2 = "Yes") ∧
    (["Web_Search", "Relevance_Checker", "Web_Search", "Relevance_Checker",
        "Web_Search", "Relevance_Checker", "Augment", "Generate"].count "Relevance_Checker"
      = 3) ∧
    ∀ (llm : String → String) (qna dev : String → List String) (search : String → String)
      (s : GraphState), (∀ p, pyStrip (llm p) = "No") → s.iteration_count = 0 →
      ∃ f : GraphState,
        runRetrieval llm qna dev search "Web_Search" s =
          Engine.RunResult.ok
            ["Web_Search", "Relevance_Checker", "Web_Search", "Relevance_Checker",
             "Web_Search", "Relevance_Checker", "Augment", "Generate"] f ∧
        f.iteration_count = 3 ∧ f.is_relevant = "Yes" := by
  refine ⟨?_, ?_, by decide, ?_⟩
  · intro t
    unfold relevance_decision
    dsimp only
    split <;> rfl
  · intro t h
    simp [relevance_decision, h]
  · intro llm qna dev search s hno h0
    simp only [runRetrieval]
    rw [Engine.runE_step _ 9]
    simp [Engine.lookupNode, Engine.resolveNext, retrievalWorkflow, List.lookup, web_search,
      check_context_relevance, relevance_decision, build_prompt, call_llm, hno, h0]
    rw [Engine.runE_step _ 8]
    simp [Engine.lookupNode, Engine.resolveNext, retrievalWorkflow, List.lookup, web_search,
      check_context_relevance, relevance_decision, build_prompt, call_llm, hno, h0]
    rw [Engine.runE_step _ 7]
    simp [Engine.lookupNode, Engine.resolveNext, retrievalWorkflow, List.lookup, web_search,
      check_context_relevance, relevance_decision, build_prompt, call_llm, hno, h0]
    rw [Engine.runE_step _ 6]
    simp [Engine.lookupNode, Engine.resolveNext, retrievalWorkflow, List.lookup, web_search,
      check_context_relevance, relevance_decision, build_prompt, call_llm, hno, h0]
    rw [Engine.runE_step _ 5]
    simp [Engine.lookupNode, Engine.resolveNext, retrievalWorkflow, List.lookup, web_search,
      check_context_relevance, relevance_decision, build_prompt, call_llm, hno, h0]
    rw [Engine.runE_step _ 4]
    simp [Engine.lookupNode, Engine.resolveNext, retrievalWorkflow, List.lookup, web_search,
      check_context_relevance, relevance_decision, build_prompt, call_llm, hno, h0]
    rw [Engine.runE_step _ 3]
    simp [Engine.lookupNode, Engine.resolveNext, retrievalWorkflow, List.lookup, web_search,
      check_context_relevance, relevance_decision, build_prompt, call_llm, hno, h0]
    rw [Engine.runE_step _ 2]
    simp [Engine.lookupNode, Engine.resolveNext, retrievalWorkflow, List.lookup, web_search,
      check_context_relevance, relevance_decision, build_prompt, call_llm, hno, h0]

/-- Witness for C1: a decision function that always answers "No", empty
collections, a constant search blob, and a fresh state. -/
theorem c1_relevance_cycle_bounded_witness :
    (∀ p, pyStrip ((fun _ : String => "No") p) = "No") ∧
    ∃ f : GraphState,
      runRetrieval (fun _ => "No") (fun _ => []) (fun _ => []) (fun _ => "blob")
          "Web_Search"
          { query := "q", context := "", prompt := "", response := "", source := "",
            is_relevant := "", iteration_count := 0 } =
        Engine.RunResult.ok
          ["Web_Search", "Relevance_Checker", "Web_Search", "Relevance_Checker",
           "Web_Search", "Relevance_Checker", "Augment", "Generate"] f ∧
      f.iteration_count = 3 ∧ f.is_relevant = "Yes" :=
  ⟨fun _ => rfl,
    c1_relevance_cycle_bounded.2.2.2 (fun _ => "No") (fun _ => []) (fun _ => [])
      (fun _ => "blob")
      { query := "q", context := "", prompt := "", response := "", source := "",
        is_relevant := "", iteration_count := 0 }
      (fun _ => rfl) rfl⟩

end Medium

namespace Medium

/-- C8: a conditional routing label with no configured successor fails the
invocation with `UnmappedLabel` and returns no state.  In the retrieval
workflow, when the router's decision (which `route_decision` reads back
from `source`) is any string outside the three mapped labels, the run
fails instead of proceeding. -/
theorem c8_unmapped_label_fails (llm : String → String) (qna dev : String → List String)
    (search : String → String) (s : GraphState)
    (h1 : pyStrip (llm (decision_prompt_text s.query)) ≠ "Retrieve_QnA")
    (h2 : pyStrip (llm (decision_prompt_text s.query)) ≠ "Retrieve_Device")
    (h3 : pyStrip (llm (decision_prompt_text s.query)) ≠ "Web_Search") :
    runRetrieval llm qna dev search "Router" s =
      Engine.RunResult.fail
        (Engine.ExecErr.unmappedLabel (pyStrip (llm (decision_prompt_text s.query)))) := by
  have hb1 : (pyStrip (llm (decision_prompt_text s.query)) == "Retrieve_QnA") = false := by
    simp [h1]
  have hb2 : (pyStrip (llm (decision_prompt_text s.query)) == "Retrieve_Device") = false := by
    simp [h2]
  have hb3 : (pyStrip (llm (decision_prompt_text s.query)) == "Web_Search") = false := by
    simp [h3]
  simp only [runRetrieval]
  rw [Engine.runE_step _ 9]
  simp [Engine.lookupNode, Engine.resolveNext, retrievalWorkflow, List.lookup, router,
    route_decision, hb1, hb2, hb3]

/-- Witness for C8: a decision function answering an unmapped label. -/
theorem c8_unmapped_label_fails_witness :
    runRetrieval (fun _ => "Bogus") (fun _ => []) (fun _ => []) (fun _ => "blob") "Router"
        { query := "q", context := "", prompt := "", response := "", source := "",
          is_relevant := "", iteration_count := 0 } =
      Engine.RunResult.fail
        (Engine.ExecErr.unmappedLabel
          (pyStrip ((fun _ : String => "Bogus") (decision_prompt_text "q")))) :=
  c8_unmapped_label_fails (fun _ => "Bogus") (fun _ => []) (fun _ => []) (fun _ => "blob")
    { query := "q", context := "", prompt := "", response := "", source := "",
      is_relevant := "", iteration_count := 0 }
    (by decide) (by decide) (by decide)

end Medium
